import Mathlib

/-!
# Solar-system simulation (`src/main.go`): embedding and verified properties

The program keeps a fixed Sun and a slice of planets, gives every planet a
circular-orbit speed once (`initPlanets`) and then advances all planets by one
semi-implicit Euler step per frame (`computeForces`, called from `Game.Update`).

Modelling choices.

* `float64` is modelled by an exact field `α` with a square-root function
  `sqrt : α → α` passed as a parameter.  Rounding, overflow and NaN are not
  modelled.  The definitions are computable for every field with decidable
  equality (for instance `ℚ`); the theorems about numerical values are stated
  over `ℝ` with `Real.sqrt`.  Where the rounding of `float64` decides what the
  code does (the guard `dist != 0` when `dx*dx + dy*dy` underflows), it is
  brought in through the `sqrt` parameter (`sqrtUnderflow`).
* A float division by zero does not stop a Go program, but its result is not a
  real number.  Every function that divides therefore also records, in the
  ghost field `State.divisors`, the divisor of each division it evaluates, in
  evaluation order.
* Go slices are references.  The memory is a list of backing arrays
  (`Heap`), a slice is the address of its backing array, `make` allocates a
  fresh array at the end of the heap, and element writes go through the heap.
  An address outside the heap behaves as the nil slice (length zero).
* The package-level variables `Sun` and `Planets` are fields of `State`.
-/

set_option linter.unusedSectionVars false

namespace Orbit

/-- Struct `Body` of `main.go`, lines 20-27; the scalar type `α` stands for `float64`. -/
structure Body (α : Type) where
  Name : String
  Mass : α
  Radius : α
  X : α
  Y : α
  Vx : α
  Vy : α
  BodyColor : Fin 256 × Fin 256 × Fin 256

/-- Backing arrays of all slices allocated so far, indexed by address. -/
abbrev Heap (α : Type) := List (List (Body α))

/-- Program state: the memory, the package variables `Sun` and `Planets`
(a slice, given by the address of its backing array), and the ghost log of the
divisors of all divisions evaluated so far. -/
structure State (α : Type) where
  heap : Heap α
  Sun : Body α
  Planets : Nat
  divisors : List α

section Defs

variable {α : Type} [Field α] [DecidableEq α]

/-- Constant `G`, line 12. -/
def G : α := 6.67430e-11

/-- Constant `TimeStep`, line 13. -/
def TimeStep : α := 7200

/-- Constant `AU`, line 16. -/
def AU : α := 1.496e11

/-- The zero value of `Body`, with which `make` fills a new array. -/
def Body.zero : Body α :=
  { Name := "", Mass := 0, Radius := 0, X := 0, Y := 0, Vx := 0, Vy := 0, BodyColor := (0, 0, 0) }

/-- Initial value of the package variable `Sun`, lines 30-37. -/
def Sun : Body α :=
  { Name := "Sun", Mass := 1.989e30, Radius := 20, X := 0, Y := 0, Vx := 0, Vy := 0,
    BodyColor := (255, 255, 0) }

/-- Initial value of the package variable `Planets`, lines 39-72. -/
def Planets : List (Body α) :=
  [ { Name := "Earth", Mass := 5.972e24, Radius := 10, X := AU, Y := 0, Vx := 0, Vy := 0,
      BodyColor := (0, 0, 255) },
    { Name := "Mars", Mass := 6.417e23, Radius := 8, X := 1.524 * AU, Y := 0, Vx := 0, Vy := 0,
      BodyColor := (255, 0, 0) },
    { Name := "Venus", Mass := 4.867e24, Radius := 9, X := 0.723 * AU, Y := 0, Vx := 0, Vy := 0,
      BodyColor := (255, 165, 0) },
    { Name := "Mercury", Mass := 3.301e23, Radius := 7, X := 0.387 * AU, Y := 0, Vx := 0, Vy := 0,
      BodyColor := (128, 128, 128) } ]

/-- State of the program when `main` starts: one array, that of `Planets`. -/
def initialState : State α :=
  { heap := [Planets], Sun := Sun, Planets := 0, divisors := [] }

/-- Contents of the slice at address `a`; the nil slice for an unallocated address. -/
def Heap.elems (h : Heap α) (a : Nat) : List (Body α) := h.getD a []

/-- Go `len(s)`. -/
def Heap.len (h : Heap α) (a : Nat) : Nat := (h.elems a).length

/-- Read of `s[i]`, for `i` in range. -/
def Heap.get (h : Heap α) (a i : Nat) : Option (Body α) := (h.elems a)[i]?

/-- Write of `s[i]`, for `i` in range. -/
def Heap.put (h : Heap α) (a i : Nat) (b : Body α) : Heap α := h.set a ((h.elems a).set i b)

/-- Go `make([]Body, n)`: a fresh array of `n` zero bodies; returns the new heap and the slice. -/
def Heap.make (h : Heap α) (n : Nat) : Heap α × Nat :=
  (h ++ [List.replicate n Body.zero], h.length)

/-- Go `copy(dst, src)`: copies the first `min(len(dst), len(src))` elements. -/
def Heap.copy (h : Heap α) (dst src : Nat) : Heap α :=
  let n := min (h.len dst) (h.len src)
  h.set dst ((h.elems src).take n ++ (h.elems dst).drop n)

/-- Go `for i := range s` over a slice of length `n`: the loop body runs for `i = 0, …, n-1`. -/
def forRange {σ : Type} (n : Nat) (body : Nat → σ → σ) (s : σ) : σ :=
  (List.range n).foldl (fun st i => body i st) s

/-- Body of the loop of `initPlanets`, lines 77-81, for one planet value: the
planet with its new velocity, and the divisor of the one division evaluated. -/
def initBody (sqrt : α → α) (sun p : Body α) : Body α × List α :=
  let distance := sqrt (p.X * p.X + p.Y * p.Y)
  let orbitalSpeed := sqrt (G * sun.Mass / distance)
  ({ p with Vx := 0, Vy := orbitalSpeed }, [distance])

/-- One iteration of the loop of `initPlanets` on the state. -/
def initStep (sqrt : α → α) (i : Nat) (s : State α) : State α :=
  match s.heap.get s.Planets i with
  | none => s
  | some p =>
    let r := initBody sqrt s.Sun p
    { s with heap := s.heap.put s.Planets i r.1, divisors := s.divisors ++ r.2 }

/-- Function `initPlanets`, lines 75-83. -/
def initPlanets (sqrt : α → α) (s : State α) : State α :=
  forRange (s.heap.len s.Planets) (initStep sqrt) s

/-- Body of the first loop of `computeForces`, lines 90-103, for one body value:
the body with its new velocity, and the divisors of the divisions evaluated, in order. -/
def forceBody (sqrt : α → α) (sun b : Body α) : Body α × List α :=
  let dx := sun.X - b.X
  let dy := sun.Y - b.Y
  let dist := sqrt (dx * dx + dy * dy)
  let f : α × α × List α :=
    if dist ≠ 0 then
      let force := G * b.Mass * sun.Mass / (dist * dist)
      (0 + force * dx / dist, 0 + force * dy / dist, [dist * dist, dist, dist])
    else
      (0, 0, [])
  let ax := f.1 / b.Mass
  let ay := f.2.1 / b.Mass
  ({ b with Vx := b.Vx + ax * TimeStep, Vy := b.Vy + ay * TimeStep }, f.2.2 ++ [b.Mass, b.Mass])

/-- One iteration of the first loop of `computeForces` on the state. -/
def forceStep (sqrt : α → α) (newBodies : Nat) (i : Nat) (s : State α) : State α :=
  match s.heap.get newBodies i with
  | none => s
  | some b =>
    let r := forceBody sqrt s.Sun b
    { s with heap := s.heap.put newBodies i r.1, divisors := s.divisors ++ r.2 }

/-- Body of the second loop of `computeForces`, lines 108-109, for one body value. -/
def moveBody (b : Body α) : Body α :=
  { b with X := b.X + b.Vx * TimeStep, Y := b.Y + b.Vy * TimeStep }

/-- One iteration of the second loop of `computeForces` on the state. -/
def moveStep (newBodies : Nat) (i : Nat) (s : State α) : State α :=
  match s.heap.get newBodies i with
  | none => s
  | some b => { s with heap := s.heap.put newBodies i (moveBody b) }

/-- Function `computeForces`, lines 85-113: returns the new state and the returned slice. -/
def computeForces (sqrt : α → α) (s : State α) (bodies : Nat) : State α × Nat :=
  let m := s.heap.make (s.heap.len bodies)
  let newBodies := m.2
  let s1 : State α := { s with heap := m.1.copy newBodies bodies }
  let s2 := forRange (s1.heap.len newBodies) (forceStep sqrt newBodies) s1
  let s3 := forRange (s2.heap.len newBodies) (moveStep newBodies) s2
  (s3, newBodies)

/-- Method `Game.Update`, lines 117-120: `Planets = computeForces(Planets)`. -/
def Update (sqrt : α → α) (s : State α) : State α :=
  let r := computeForces sqrt s s.Planets
  { r.1 with Planets := r.2 }

/-- A state whose memory holds just the array `bodies`, with the given Sun. -/
def stateOf (sun : Body α) (bodies : List (Body α)) : State α :=
  { heap := [bodies], Sun := sun, Planets := 0, divisors := [] }

/-- The collection returned by `computeForces` when called, with `Sun = sun`, on
a slice holding `bodies`. -/
def computeForcesOut (sqrt : α → α) (sun : Body α) (bodies : List (Body α)) : List (Body α) :=
  let r := computeForces sqrt (stateOf sun bodies) 0
  r.1.heap.elems r.2

/-- The divisors of the divisions evaluated by that call of `computeForces`, in order. -/
def computeForcesDivisors (sqrt : α → α) (sun : Body α) (bodies : List (Body α)) : List α :=
  (computeForces sqrt (stateOf sun bodies) 0).1.divisors

/-- The planets after `initPlanets` run on a state whose `Planets` slice holds
`planets`, with `Sun = sun`. -/
def initPlanetsOut (sqrt : α → α) (sun : Body α) (planets : List (Body α)) : List (Body α) :=
  let s := initPlanets sqrt (stateOf sun planets)
  s.heap.elems s.Planets

/-- A square root on `ℚ` that is exact on squares of rationals (used to run the
definitions on concrete inputs). -/
def qsqrt (q : ℚ) : ℚ := (Nat.sqrt q.num.toNat : ℚ) / (Nat.sqrt q.den : ℚ)

/-- A square root on `ℚ` with the underflow of `float64`: a sum of products below
`2^-1075` is rounded to zero by `float64` before the root is taken, so the root
is zero there; elsewhere it is `qsqrt`. -/
def sqrtUnderflow (q : ℚ) : ℚ := if q ≤ 1 / 2 ^ 1075 then 0 else qsqrt q

/-- The state after a loop has treated the first `k` elements of the array at `a`
(initially `l`) with `f`. -/
def after (f : Body α → Body α × List α) (a : Nat) (l : List (Body α)) (s : State α) (k : Nat) :
    State α :=
  { s with
    heap := s.heap.set a ((l.take k).map (fun b => (f b).1) ++ l.drop k)
    divisors := s.divisors ++ (l.take k).flatMap (fun b => (f b).2) }

/-- The whole tick on one body value: first loop, then second loop. -/
def tickBody (sqrt : α → α) (sun b : Body α) : Body α := moveBody (forceBody sqrt sun b).1

/-- The collection `l` rearranged by the index list `p`: element `j` of the result is `l[p[j]]`. -/
def permuted {β : Type} (p : List Nat) (l : List β) : List β := p.filterMap (fun i => l[i]?)

/-- The first element of `Planets`, lines 40-47. -/
def earth : Body α :=
  { Name := "Earth", Mass := 5.972e24, Radius := 10, X := AU, Y := 0, Vx := 0, Vy := 0,
    BodyColor := (0, 0, 255) }

/-- The Earth with the velocity that `initPlanets` assigns to it. -/
def earthInOrbit (sqrt : α → α) : Body α :=
  { (earth : Body α) with Vx := 0, Vy := sqrt (G * 1.989e30 / 1.496e11) }

/-- A test Sun of mass 5 at the origin. -/
def testSun : Body α :=
  { Name := "S", Mass := 5, Radius := 1, X := 0, Y := 0, Vx := 0, Vy := 0, BodyColor := (1, 1, 1) }

/-- A test body of mass 2 at `(x, y)` with velocity `(vx, vy)`. -/
def testBody (x y vx vy : α) : Body α :=
  { Name := "t", Mass := 2, Radius := 1, X := x, Y := y, Vx := vx, Vy := vy, BodyColor := (2, 2, 2) }

/-- The per-body algorithm of the specification (section 4.2, steps 1-7) as one
fused step on a single body: displacement, distance, zero-distance guard, force
magnitude `F = G*m*M/dist^2`, components `F*dx/dist`, acceleration `Fx/m`, velocity
update, then position update from the new velocity. -/
def fusedStep (sqrt : α → α) (central body : Body α) : Body α :=
  let dx := central.X - body.X
  let dy := central.Y - body.Y
  let dist := sqrt (dx ^ 2 + dy ^ 2)
  let a : α × α :=
    if dist = 0 then (0, 0)
    else
      let F := G * body.Mass * central.Mass / dist ^ 2
      ((F * dx / dist) / body.Mass, (F * dy / dist) / body.Mass)
  let vx := body.Vx + a.1 * TimeStep
  let vy := body.Vy + a.2 * TimeStep
  { body with Vx := vx, Vy := vy, X := body.X + vx * TimeStep, Y := body.Y + vy * TimeStep }

/-- The direct form of the acceleration of the specification (design notes):
`G * central.mass * dx / dist^3`, and similarly for `y`, with no use of the body's mass. -/
def directAccel (sqrt : α → α) (central body : Body α) : α × α :=
  let dx := central.X - body.X
  let dy := central.Y - body.Y
  let dist := sqrt (dx ^ 2 + dy ^ 2)
  (G * central.Mass * dx / dist ^ 3, G * central.Mass * dy / dist ^ 3)

/-- Angular momentum per unit mass about the origin, `X*Vy - Y*Vx`. -/
def angularMomentum (b : Body α) : α := b.X * b.Vy - b.Y * b.Vx

/-- A test body of mass zero at `(1, 0)` with velocity `(0, 1)`. -/
def masslessBody : Body α :=
  { Name := "m", Mass := 0, Radius := 1, X := 1, Y := 0, Vx := 0, Vy := 1, BodyColor := (3, 3, 3) }

/-- A state that holds the two test bodies at address 1, after another array, with
a different `Planets` variable, a non-empty log and a Sun of the same position
and mass as `testSun` under another name. -/
def otherState : State α :=
  { heap := [[masslessBody], [testBody 3 4 1 0, testBody 1 0 0 1]]
    Sun := { (testSun : Body α) with Name := "other", Radius := 9 }
    Planets := 7
    divisors := [1, 2] }

end Defs


section Loops

variable {α : Type}

theorem set_getD_self {β : Type} (h : List (List β)) (a : Nat) : h.set a (h.getD a []) = h := by
  apply List.ext_getElem?
  intro j
  rw [List.getElem?_set]
  by_cases haj : a = j
  · subst haj
    by_cases hlt : a < h.length
    · simp [hlt, List.getD_eq_getElem, List.getElem?_eq_getElem]
    · simp [hlt, List.getElem?_eq_none (Nat.le_of_not_lt hlt)]
  · simp [haj]

theorem getD_set_self {β : Type} (h : List (List β)) (a : Nat) (x : List β) (ha : a < h.length) :
    (h.set a x).getD a [] = x := by
  rw [List.getD_eq_getElem?_getD, List.getElem?_set_self ha]
  rfl

theorem getElem?_done_todo {β : Type} (f : β → β) (l : List β) (k : Nat) :
    ((l.take k).map f ++ l.drop k)[k]? = l[k]? := by
  by_cases hk : k ≤ l.length
  · rw [List.getElem?_append_right (by simp [hk])]
    simp [hk]
  · have hk2 : l.length ≤ k := Nat.le_of_lt (Nat.lt_of_not_le hk)
    rw [List.getElem?_eq_none hk2, List.getElem?_eq_none]
    simp
    omega

theorem set_done_todo {β : Type} (f : β → β) (l : List β) (k : Nat) (hk : k < l.length) :
    ((l.take k).map f ++ l.drop k).set k (f l[k]) = (l.take (k + 1)).map f ++ l.drop (k + 1) := by
  have hlen : ((l.take k).map f).length ≤ k := by simp
  rw [List.set_append_right k _ hlen, List.drop_eq_getElem_cons hk, List.take_succ,
    List.getElem?_eq_getElem hk]
  have h0 : k - ((l.take k).map f).length = 0 := by simp [Nat.le_of_lt hk]
  simp only [h0, List.set_cons_zero, Option.toList, List.map_append, List.map_cons, List.map_nil,
    List.append_assoc, List.singleton_append]

theorem forRange_succ {σ : Type} (n : Nat) (body : Nat → σ → σ) (s : σ) :
    forRange (n + 1) body s = body n (forRange n body s) := by
  simp [forRange, List.range_succ, List.foldl_append]

theorem elems_set_self (h : Heap α) (a : Nat) (x : List (Body α)) (ha : a < h.length) :
    Heap.elems (h.set a x) a = x :=
  getD_set_self h a x ha

end Loops

section Characterisation

variable {α : Type} [Field α] [DecidableEq α]

theorem forRange_after (f : Body α → Body α × List α) (step : Nat → State α → State α) (a : Nat)
    (s : State α) (ha : a < s.heap.length)
    (hstep : ∀ i (t : State α), t.Sun = s.Sun → t.Planets = s.Planets →
      step i t = match t.heap.get a i with
        | none => t
        | some b => { t with heap := t.heap.put a i (f b).1, divisors := t.divisors ++ (f b).2 })
    (k : Nat) (hk : k ≤ s.heap.len a) :
    forRange k step s = after f a (s.heap.elems a) s k := by
  induction k with
  | zero =>
    simp only [forRange, after, Heap.elems, List.range_zero, List.foldl_nil, List.take_zero,
      List.map_nil, List.nil_append, List.drop_zero, set_getD_self, List.flatMap_nil,
      List.append_nil]
  | succ k ih =>
    have hk2 : k < (s.heap.elems a).length := hk
    rw [forRange_succ, ih (Nat.le_of_lt hk), hstep k (after f a (s.heap.elems a) s k) rfl rfl]
    generalize s.heap.elems a = l at hk2
    have hget : (after f a l s k).heap.get a k = some l[k] := by
      simp only [after, Heap.get]
      rw [elems_set_self _ _ _ ha, getElem?_done_todo]
      exact List.getElem?_eq_getElem hk2
    rw [hget]
    simp only [after, Heap.put]
    rw [elems_set_self _ _ _ ha, List.set_set,
      set_done_todo (fun b => (f b).1) _ k hk2, List.take_succ (n := k),
      List.getElem?_eq_getElem hk2]
    simp only [Option.toList, List.flatMap_append, List.flatMap_cons, List.flatMap_nil,
      List.append_nil, List.append_assoc]

theorem forRange_all (f : Body α → Body α × List α) (step : Nat → State α → State α) (a : Nat)
    (s : State α) (ha : a < s.heap.length)
    (hstep : ∀ i (t : State α), t.Sun = s.Sun → t.Planets = s.Planets →
      step i t = match t.heap.get a i with
        | none => t
        | some b => { t with heap := t.heap.put a i (f b).1, divisors := t.divisors ++ (f b).2 }) :
    forRange (s.heap.len a) step s =
      { s with
        heap := s.heap.set a ((s.heap.elems a).map (fun b => (f b).1))
        divisors := s.divisors ++ (s.heap.elems a).flatMap (fun b => (f b).2) } := by
  rw [forRange_after f step a s ha hstep _ (Nat.le_refl _)]
  simp [after, Heap.len]

theorem elems_append_fresh (h : Heap α) (x : List (Body α)) :
    Heap.elems (h ++ [x]) h.length = x := by
  simp [Heap.elems, List.getD_eq_getElem?_getD]

theorem set_append_fresh (h : Heap α) (x y : List (Body α)) :
    (h ++ [x]).set h.length y = h ++ [y] := by
  rw [List.set_append_right _ _ (Nat.le_refl _)]
  simp

theorem elems_append_make (h : Heap α) (a : Nat) (z : Body α) :
    Heap.elems (h ++ [List.replicate (h.len a) z]) a = h.elems a := by
  unfold Heap.len Heap.elems
  rw [List.getD_eq_getElem?_getD, List.getD_eq_getElem?_getD]
  rcases Nat.lt_trichotomy a h.length with hlt | heq | hgt
  · rw [List.getElem?_append_left hlt]
  · subst heq
    simp
  · rw [List.getElem?_eq_none (by simp; omega), List.getElem?_eq_none (by omega)]

theorem make_copy (h : Heap α) (a : Nat) :
    (h.make (h.len a)).1.copy (h.make (h.len a)).2 a = h ++ [h.elems a] := by
  simp only [Heap.make, Heap.copy]
  rw [elems_append_make, elems_append_fresh]
  have h1 : Heap.len (h ++ [List.replicate (h.len a) Body.zero]) h.length = h.len a := by
    rw [Heap.len, elems_append_fresh]; simp
  have h2 : Heap.len (h ++ [List.replicate (h.len a) Body.zero]) a = h.len a := by
    rw [Heap.len, elems_append_make]; rfl
  rw [h1, h2, set_append_fresh]
  simp [Heap.len]

theorem computeForces_eq (sqrt : α → α) (s : State α) (a : Nat) :
    computeForces sqrt s a =
      ({ s with
         heap := s.heap ++ [(s.heap.elems a).map (tickBody sqrt s.Sun)]
         divisors := s.divisors ++ (s.heap.elems a).flatMap (fun b => (forceBody sqrt s.Sun b).2) },
       s.heap.length) := by
  unfold computeForces
  simp only [make_copy]
  have hm : (s.heap.make (s.heap.len a)).2 = s.heap.length := rfl
  rw [hm]
  have hlen : (s.heap ++ [s.heap.elems a]).length > s.heap.length := by simp
  rw [forRange_all (forceBody sqrt s.Sun) (forceStep sqrt s.heap.length) s.heap.length
    { s with heap := s.heap ++ [s.heap.elems a] } hlen
    (by intro i t hs _; simp only [forceStep, hs])]
  simp only [elems_append_fresh, set_append_fresh]
  have hlen2 : (s.heap ++ [(s.heap.elems a).map (fun b => (forceBody sqrt s.Sun b).1)]).length
      > s.heap.length := by simp
  have h2 := forRange_all (fun b => (moveBody b, [])) (moveStep s.heap.length) s.heap.length
    { s with
      heap := s.heap ++ [(s.heap.elems a).map (fun b => (forceBody sqrt s.Sun b).1)]
      divisors := s.divisors ++ (s.heap.elems a).flatMap (fun b => (forceBody sqrt s.Sun b).2) }
    hlen2 (by intro i t _ _; simp only [moveStep, List.append_nil])
  dsimp only at h2
  rw [h2]
  simp only [elems_append_fresh, set_append_fresh, List.map_map]
  simp [tickBody, Function.comp_def]

theorem initPlanets_eq (sqrt : α → α) (s : State α) :
    initPlanets sqrt s =
      { s with
        heap := s.heap.set s.Planets ((s.heap.elems s.Planets).map (fun p => (initBody sqrt s.Sun p).1))
        divisors := s.divisors ++
          (s.heap.elems s.Planets).flatMap (fun p => (initBody sqrt s.Sun p).2) } := by
  unfold initPlanets
  by_cases ha : s.Planets < s.heap.length
  · exact forRange_all (initBody sqrt s.Sun) (initStep sqrt) s.Planets s ha
      (by intro i t hs hp; simp only [initStep, hs, hp])
  · have hle : s.heap.length ≤ s.Planets := Nat.le_of_not_lt ha
    have he : s.heap.elems s.Planets = [] := List.getD_eq_default _ _ hle
    simp [Heap.len, he, forRange, List.set_eq_of_length_le hle]

theorem computeForcesOut_eq (sqrt : α → α) (sun : Body α) (bodies : List (Body α)) :
    computeForcesOut sqrt sun bodies = bodies.map (tickBody sqrt sun) := by
  simp only [computeForcesOut, computeForces_eq, stateOf]
  exact elems_append_fresh _ _

theorem computeForcesDivisors_eq (sqrt : α → α) (sun : Body α) (bodies : List (Body α)) :
    computeForcesDivisors sqrt sun bodies =
      bodies.flatMap (fun b => (forceBody sqrt sun b).2) := by
  simp [computeForcesDivisors, computeForces_eq, stateOf, Heap.elems]

theorem initPlanetsOut_eq (sqrt : α → α) (sun : Body α) (planets : List (Body α)) :
    initPlanetsOut sqrt sun planets = planets.map (fun p => (initBody sqrt sun p).1) := by
  simp [initPlanetsOut, initPlanets_eq, stateOf, Heap.elems]

end Characterisation

section PerBody

theorem getElem?_computeForcesOut {α : Type} [Field α] [DecidableEq α] (sqrt : α → α)
    (sun : Body α) (bodies : List (Body α)) (i : Nat) :
    (computeForcesOut sqrt sun bodies)[i]? = (bodies[i]?).map (tickBody sqrt sun) := by
  rw [computeForcesOut_eq, List.getElem?_map]

theorem dist_ne_zero (sun b : Body ℝ) (hpos : b.X ≠ sun.X ∨ b.Y ≠ sun.Y) :
    Real.sqrt ((sun.X - b.X) * (sun.X - b.X) + (sun.Y - b.Y) * (sun.Y - b.Y)) ≠ 0 := by
  have hx : 0 ≤ (sun.X - b.X) * (sun.X - b.X) := mul_self_nonneg _
  have hy : 0 ≤ (sun.Y - b.Y) * (sun.Y - b.Y) := mul_self_nonneg _
  have hp : 0 < (sun.X - b.X) * (sun.X - b.X) + (sun.Y - b.Y) * (sun.Y - b.Y) := by
    rcases hpos with h | h
    · have : 0 < (sun.X - b.X) * (sun.X - b.X) :=
        mul_self_pos.mpr (sub_ne_zero.mpr (Ne.symm h))
      linarith
    · have : 0 < (sun.Y - b.Y) * (sun.Y - b.Y) :=
        mul_self_pos.mpr (sub_ne_zero.mpr (Ne.symm h))
      linarith
  exact (Real.sqrt_pos.mpr hp).ne'

theorem split_at {β : Type} (l : List β) (i : Nat) (b : β) (hb : l[i]? = some b) :
    l = l.take i ++ [b] ++ l.drop (i + 1) := by
  have hi : i < l.length := by
    by_contra hcon
    rw [List.getElem?_eq_none (Nat.le_of_not_lt hcon)] at hb
    cases hb
  have hbi : l[i] = b := by
    rw [List.getElem?_eq_getElem hi] at hb
    exact Option.some.inj hb
  calc l = l.take i ++ l.drop i := (List.take_append_drop i l).symm
    _ = l.take i ++ (l[i] :: l.drop (i + 1)) := by rw [← List.drop_eq_getElem_cons hi]
    _ = l.take i ++ [b] ++ l.drop (i + 1) := by rw [hbi]; simp

theorem dist_eq_zero (sun b : Body ℝ) (hx : b.X = sun.X) (hy : b.Y = sun.Y) :
    Real.sqrt ((sun.X - b.X) * (sun.X - b.X) + (sun.Y - b.Y) * (sun.Y - b.Y)) = 0 := by
  simp [hx, hy]

theorem getElem?_initPlanetsOut {α : Type} [Field α] [DecidableEq α] (sqrt : α → α)
    (sun : Body α) (planets : List (Body α)) (i : Nat) :
    (initPlanetsOut sqrt sun planets)[i]? =
      (planets[i]?).map (fun p => (initBody sqrt sun p).1) := by
  rw [initPlanetsOut_eq, List.getElem?_map]

theorem G_mul_SunMass_pos : (0 : ℝ) < G * (Sun : Body ℝ).Mass := by
  simp only [G, Sun]
  norm_num

theorem elems_append_same {α : Type} (h : Heap α) (a : Nat) (x : List (Body α))
    (hx : x.length = (h.elems a).length) :
    Heap.elems (h ++ [x]) a = h.elems a := by
  unfold Heap.elems at hx ⊢
  rw [List.getD_eq_getElem?_getD, List.getD_eq_getElem?_getD] at *
  rcases Nat.lt_trichotomy a h.length with hlt | heq | hgt
  · rw [List.getElem?_append_left hlt]
  · subst heq
    simp only [List.getElem?_concat_length, Option.getD_some]
    rw [List.getElem?_eq_none (Nat.le_refl _)] at hx ⊢
    exact List.length_eq_zero.mp hx
  · rw [List.getElem?_eq_none (by simp; omega), List.getElem?_eq_none (by omega)]

theorem permuted_map {β γ : Type} (f : β → γ) (p : List Nat) (l : List β) :
    permuted p (l.map f) = (permuted p l).map f := by
  simp only [permuted, List.map_filterMap, List.getElem?_map]

theorem permuted_range {β : Type} (l : List β) : permuted (List.range l.length) l = l := by
  induction l using List.reverseRecOn with
  | nil => rfl
  | append_singleton l a ih =>
    have h1 : (List.range l.length).filterMap (fun i => (l ++ [a])[i]?) =
        (List.range l.length).filterMap (fun i => l[i]?) := by
      apply List.filterMap_congr
      intro i hi
      exact List.getElem?_append_left (List.mem_range.mp hi)
    simp only [permuted] at ih ⊢
    rw [List.length_append, List.length_singleton, List.range_succ, List.filterMap_append, h1, ih]
    simp

theorem permuted_perm {β : Type} (p : List Nat) (l : List β)
    (hp : p.Perm (List.range l.length)) : (permuted p l).Perm l := by
  have h := hp.filterMap (fun i => l[i]?)
  rw [show List.filterMap (fun i => l[i]?) (List.range l.length) = l from permuted_range l] at h
  exact h

theorem earth_speed_eq :
    (initBody Real.sqrt Sun (earth : Body ℝ)).1.Vy =
      Real.sqrt (G * (Sun : Body ℝ).Mass / 1.496e11) := by
  have hd : Real.sqrt ((earth : Body ℝ).X * (earth : Body ℝ).X
      + (earth : Body ℝ).Y * (earth : Body ℝ).Y) = 1.496e11 := by
    have h : (earth : Body ℝ).X * (earth : Body ℝ).X + (earth : Body ℝ).Y * (earth : Body ℝ).Y
        = (1.496e11 : ℝ) ^ 2 := by
      simp only [earth, AU]; ring
    rw [h, Real.sqrt_sq (by norm_num)]
  simp only [initBody, hd]

theorem earth_speed_bounds :
    (29788.89 : ℝ) < Real.sqrt (G * (Sun : Body ℝ).Mass / 1.496e11) ∧
    Real.sqrt (G * (Sun : Body ℝ).Mass / 1.496e11) < 29788.90 := by
  constructor
  · rw [Real.lt_sqrt (by norm_num)]
    simp only [G, Sun]
    norm_num
  · rw [Real.sqrt_lt' (by norm_num)]
    simp only [G, Sun]
    norm_num

end PerBody

section Ticks

variable {α : Type} [Field α] [DecidableEq α]

theorem tickBody_congr (sqrt : α → α) (sun1 sun2 b : Body α) (hx : sun1.X = sun2.X)
    (hy : sun1.Y = sun2.Y) (hm : sun1.Mass = sun2.Mass) :
    tickBody sqrt sun1 b = tickBody sqrt sun2 b := by
  simp only [tickBody, forceBody, hx, hy, hm]

theorem Update_eq (sqrt : α → α) (s : State α) :
    Update sqrt s =
      { heap := s.heap ++ [(s.heap.elems s.Planets).map (tickBody sqrt s.Sun)]
        Sun := s.Sun
        Planets := s.heap.length
        divisors := s.divisors ++
          (s.heap.elems s.Planets).flatMap (fun b => (forceBody sqrt s.Sun b).2) } := by
  simp only [Update, computeForces_eq]

theorem tickBody_eq_fusedStep (sqrt : α → α) (sun b : Body α) :
    tickBody sqrt sun b = fusedStep sqrt sun b := by
  simp only [tickBody, moveBody, forceBody, fusedStep, sq]
  by_cases hd : sqrt ((sun.X - b.X) * (sun.X - b.X) + (sun.Y - b.Y) * (sun.Y - b.Y)) = 0
  · simp [hd]
  · simp [hd]

theorem iterate_computeForcesOut (sqrt : α → α) (sun : Body α) (n : Nat)
    (bodies : List (Body α)) :
    (computeForcesOut sqrt sun)^[n] bodies = bodies.map ((tickBody sqrt sun)^[n]) := by
  induction n generalizing bodies with
  | zero => simp
  | succ n ih =>
    rw [Function.iterate_succ_apply, ih, computeForcesOut_eq, List.map_map]
    rfl

theorem forceBody_divisors_ne_zero (sun b : Body ℝ) (hm : b.Mass ≠ 0) :
    ∀ d ∈ (forceBody Real.sqrt sun b).2, d ≠ 0 := by
  intro d hmem
  by_cases hd : Real.sqrt ((sun.X - b.X) * (sun.X - b.X) + (sun.Y - b.Y) * (sun.Y - b.Y)) = 0
  · simp only [forceBody, hd, ne_eq, not_true_eq_false, if_false, List.nil_append,
      List.mem_cons, List.mem_singleton, List.not_mem_nil, or_false, or_self] at hmem
    rw [hmem]; exact hm
  · simp only [forceBody, hd, ne_eq, not_false_eq_true, if_true, List.cons_append,
      List.nil_append, List.mem_cons, List.mem_singleton, List.not_mem_nil, or_false,
      or_self] at hmem
    rcases hmem with h | h | h | h
    · rw [h]; exact mul_ne_zero hd hd
    · rw [h]; exact hd
    · rw [h]; exact hd
    · rw [h]; exact hm

theorem forceBody_direct (sun b : Body ℝ) (hm : b.Mass ≠ 0)
    (hd : Real.sqrt ((sun.X - b.X) ^ 2 + (sun.Y - b.Y) ^ 2) ≠ 0) :
    (forceBody Real.sqrt sun b).1.Vx = b.Vx + (directAccel Real.sqrt sun b).1 * TimeStep ∧
    (forceBody Real.sqrt sun b).1.Vy = b.Vy + (directAccel Real.sqrt sun b).2 * TimeStep := by
  rw [sq, sq] at hd
  simp only [forceBody, hd, ne_eq, not_false_eq_true, if_true, directAccel, zero_add]
  rw [sq, sq]
  generalize Real.sqrt ((sun.X - b.X) * (sun.X - b.X) + (sun.Y - b.Y) * (sun.Y - b.Y)) = r at hd
  constructor
  · field_simp
    ring
  · field_simp
    ring

theorem tickBody_angularMomentum (sun b : Body ℝ) (hx : sun.X = 0) (hy : sun.Y = 0) :
    angularMomentum (tickBody Real.sqrt sun b) = angularMomentum b := by
  simp only [angularMomentum, tickBody, moveBody, forceBody, hx, hy]
  by_cases hd : Real.sqrt ((0 - b.X) * (0 - b.X) + (0 - b.Y) * (0 - b.Y)) = 0
  · simp only [hd, ne_eq, not_true_eq_false, if_false]
    ring
  · simp only [hd, ne_eq, not_false_eq_true, if_true]
    ring

theorem tickBody_Mass (sqrt : α → α) (sun b : Body α) : (tickBody sqrt sun b).Mass = b.Mass := rfl

theorem iterate_tickBody_Mass (sqrt : α → α) (sun b : Body α) (n : Nat) :
    ((tickBody sqrt sun)^[n] b).Mass = b.Mass := by
  induction n with
  | zero => rfl
  | succ n ih => rw [Function.iterate_succ_apply', tickBody_Mass, ih]

theorem elems_computeForces (sqrt : α → α) (s : State α) (a : Nat) :
    (computeForces sqrt s a).1.heap.elems (computeForces sqrt s a).2 =
      (s.heap.elems a).map (tickBody sqrt s.Sun) := by
  rw [computeForces_eq]
  exact elems_append_fresh _ _

theorem initPlanets_len (sqrt : α → α) (s : State α) :
    (initPlanets sqrt s).heap.len (initPlanets sqrt s).Planets = s.heap.len s.Planets := by
  rw [initPlanets_eq]
  simp only [Heap.len]
  by_cases ha : s.Planets < s.heap.length
  · rw [elems_set_self _ _ _ ha, List.length_map]
  · rw [List.set_eq_of_length_le (Nat.le_of_not_lt ha)]

theorem Update_len (sqrt : α → α) (s : State α) :
    (Update sqrt s).heap.len (Update sqrt s).Planets = s.heap.len s.Planets := by
  rw [Update_eq]
  simp only [Heap.len]
  rw [elems_append_fresh, List.length_map]

theorem iterate_Update_Sun_len (sqrt : α → α) (s : State α) (n : Nat) :
    ((Update sqrt)^[n] s).Sun = s.Sun ∧
    ((Update sqrt)^[n] s).heap.len ((Update sqrt)^[n] s).Planets = s.heap.len s.Planets := by
  induction n with
  | zero => exact ⟨rfl, rfl⟩
  | succ n ih =>
    rw [Function.iterate_succ_apply', Update_len]
    refine ⟨?_, ih.2⟩
    rw [Update_eq]
    exact ih.1

end Ticks

section Claims

/-- C1, as stated for every position different from the Sun's, fails where the
distance underflows: a body of mass 2 at `(1e-200, 0)` with the Sun at the origin
has a position different from the Sun's and exact distance `1e-200`, but
`dx*dx + dy*dy = 1e-400` is below the `float64` range, the computed `dist` is 0, the
guard skips the force, only the two divisions by the mass are evaluated and `Vx`
is unchanged, while the claimed value `Vx + ((F*dx/dist)/m)*7200` differs from it. -/
theorem computeForces_underflow_skips_force :
    (testBody (1e-200 : ℚ) 0 1 0).Mass ≠ 0 ∧
    (testBody (1e-200 : ℚ) 0 1 0).X ≠ (Sun : Body ℚ).X ∧
    ((Sun : Body ℚ).X - (testBody (1e-200 : ℚ) 0 1 0).X) ^ 2 +
      ((Sun : Body ℚ).Y - (testBody (1e-200 : ℚ) 0 1 0).Y) ^ 2 = (1e-200 : ℚ) ^ 2 ∧
    (forceBody sqrtUnderflow Sun (testBody (1e-200 : ℚ) 0 1 0)).2 = [2, 2] ∧
    (∃ b1, (computeForcesOut sqrtUnderflow Sun [testBody (1e-200 : ℚ) 0 1 0])[0]? = some b1 ∧
      b1.Vx = 1) ∧
    (1 : ℚ) + ((G * 2 * (Sun : Body ℚ).Mass / (1e-200 : ℚ) ^ 2 * (0 - 1e-200) / 1e-200) / 2) * 7200
      ≠ 1 := by
  have hs : sqrtUnderflow (((Sun : Body ℚ).X - (testBody (1e-200 : ℚ) 0 1 0).X) *
      ((Sun : Body ℚ).X - (testBody (1e-200 : ℚ) 0 1 0).X) +
      ((Sun : Body ℚ).Y - (testBody (1e-200 : ℚ) 0 1 0).Y) *
      ((Sun : Body ℚ).Y - (testBody (1e-200 : ℚ) 0 1 0).Y)) = 0 := by
    have hle : ((Sun : Body ℚ).X - (testBody (1e-200 : ℚ) 0 1 0).X) *
      ((Sun : Body ℚ).X - (testBody (1e-200 : ℚ) 0 1 0).X) +
      ((Sun : Body ℚ).Y - (testBody (1e-200 : ℚ) 0 1 0).Y) *
      ((Sun : Body ℚ).Y - (testBody (1e-200 : ℚ) 0 1 0).Y) ≤ 1 / 2 ^ 1075 := by
      simp only [Sun, testBody]
      norm_num
    simp only [sqrtUnderflow, hle, if_true]
  have hf : forceBody sqrtUnderflow Sun (testBody (1e-200 : ℚ) 0 1 0) =
      (testBody (1e-200 : ℚ) 0 1 0, [2, 2]) := by
    simp only [forceBody, hs]
    simp [testBody]
  refine ⟨by simp [testBody], by simp only [Sun, testBody]; norm_num,
    by simp only [Sun, testBody]; norm_num, by rw [hf],
    ⟨tickBody sqrtUnderflow Sun (testBody (1e-200 : ℚ) 0 1 0), ?_, ?_⟩, ?_⟩
  · rw [getElem?_computeForcesOut]; rfl
  · simp only [tickBody, moveBody, hf]
    rfl
  · simp only [G, Sun]
    norm_num

/-- C1, amended to the guard the code tests: for a body of non-zero mass whose
computed distance `dist = sqrt(dx^2 + dy^2)` is non-zero, the output velocity of
`computeForces` at the body's index is `Vx + ((F*dx/dist)/m)*7200`,
`Vy + ((F*dy/dist)/m)*7200`, with `dx`, `dy`, `dist` and `F = G*m*Sun.Mass/dist^2`
taken from the pre-tick position and `TimeStep = 7200`, and every division of the
body's iteration has a non-zero divisor.  Holds for every scalar field and every
square-root function; over the reals the computed distance is non-zero for
every position different from the Sun's. -/
theorem computeForces_velocity_update {α : Type} [Field α] [DecidableEq α] (sqrt : α → α)
    (sun : Body α) (bodies : List (Body α)) (i : Nat)
    (b : Body α) (hb : bodies[i]? = some b) (hm : b.Mass ≠ 0)
    (hdist : sqrt ((sun.X - b.X) ^ 2 + (sun.Y - b.Y) ^ 2) ≠ 0) :
    let dx := sun.X - b.X
    let dy := sun.Y - b.Y
    let dist := sqrt (dx ^ 2 + dy ^ 2)
    let F := G * b.Mass * sun.Mass / dist ^ 2
    (TimeStep : α) = 7200 ∧
    (∀ d ∈ (forceBody sqrt sun b).2, d ≠ 0) ∧
    (∃ b1, (computeForcesOut sqrt sun bodies)[i]? = some b1 ∧
      b1.Vx = b.Vx + ((F * dx / dist) / b.Mass) * 7200 ∧
      b1.Vy = b.Vy + ((F * dy / dist) / b.Mass) * 7200) ∧
    ∀ s c : Body ℝ, (c.X ≠ s.X ∨ c.Y ≠ s.Y) →
      Real.sqrt ((s.X - c.X) ^ 2 + (s.Y - c.Y) ^ 2) ≠ 0 := by
  intro dx dy dist F
  have hd : sqrt ((sun.X - b.X) * (sun.X - b.X) + (sun.Y - b.Y) * (sun.Y - b.Y)) ≠ 0 := by
    rw [← sq, ← sq]; exact hdist
  refine ⟨rfl, ?_, ⟨tickBody sqrt sun b, ?_, ?_, ?_⟩, ?_⟩
  · intro d hmem
    simp only [forceBody, hd, ne_eq, not_false_eq_true, if_true, List.cons_append,
      List.nil_append, List.mem_cons, List.mem_singleton, List.not_mem_nil, or_false,
      or_self] at hmem
    rcases hmem with h | h | h | h
    · rw [h]; exact mul_ne_zero hd hd
    · rw [h]; exact hd
    · rw [h]; exact hd
    · rw [h]; exact hm
  · rw [getElem?_computeForcesOut, hb]; rfl
  · simp only [tickBody, moveBody, forceBody, hd, ne_eq, not_false_eq_true, if_true, TimeStep,
      zero_add, dx, dy, dist, F, sq]
  · simp only [tickBody, moveBody, forceBody, hd, ne_eq, not_false_eq_true, if_true, TimeStep,
      zero_add, dx, dy, dist, F, sq]
  · intro s c hpos
    rw [sq, sq]
    exact dist_ne_zero s c hpos

/-- Witness of C1: a body of mass 2 at `(3, 4)` and a Sun of mass 5 at the origin. -/
theorem computeForces_velocity_update_witness :
    ([testBody (3 : ℝ) 4 1 0][0]? = some (testBody 3 4 1 0)) ∧
    (testBody (3 : ℝ) 4 1 0).Mass ≠ 0 ∧
    Real.sqrt (((testSun : Body ℝ).X - (testBody (3 : ℝ) 4 1 0).X) ^ 2
      + ((testSun : Body ℝ).Y - (testBody (3 : ℝ) 4 1 0).Y) ^ 2) ≠ 0 ∧
    ∃ b1, (computeForcesOut Real.sqrt testSun [testBody (3 : ℝ) 4 1 0])[0]? = some b1 ∧
      b1.Vx = 1 + ((G * 2 * 5 / Real.sqrt ((0 - 3) ^ 2 + (0 - 4) ^ 2) ^ 2 * (0 - 3)
        / Real.sqrt ((0 - 3) ^ 2 + (0 - 4) ^ 2)) / 2) * 7200 :=
  have h1 : ([testBody (3 : ℝ) 4 1 0][0]? = some (testBody 3 4 1 0)) := rfl
  have h2 : (testBody (3 : ℝ) 4 1 0).Mass ≠ 0 := by simp [testBody]
  have h3 : Real.sqrt (((testSun : Body ℝ).X - (testBody (3 : ℝ) 4 1 0).X) ^ 2
      + ((testSun : Body ℝ).Y - (testBody (3 : ℝ) 4 1 0).Y) ^ 2) ≠ 0 := by
    have h : (0 : ℝ) < ((testSun : Body ℝ).X - (testBody (3 : ℝ) 4 1 0).X) ^ 2
        + ((testSun : Body ℝ).Y - (testBody (3 : ℝ) 4 1 0).Y) ^ 2 := by
      simp only [testBody, testSun]; norm_num
    exact (Real.sqrt_pos.mpr h).ne'
  ⟨h1, h2, h3, by
    obtain ⟨_, _, ⟨b1, hb1, hvx, _⟩, _⟩ :=
      computeForces_velocity_update Real.sqrt testSun [testBody (3 : ℝ) 4 1 0] 0 _ h1 h2 h3
    exact ⟨b1, hb1, hvx⟩⟩

/-- C2: at every index the output position of `computeForces` is the input
position advanced by the output (already updated) velocity of the same tick:
`X1 = X + Vx1*TimeStep`, `Y1 = Y + Vy1*TimeStep`, where `(Vx1, Vy1)` is the
velocity written by the first loop.  Holds for every scalar field and every
square-root function. -/
theorem computeForces_position_update {α : Type} [Field α] [DecidableEq α] (sqrt : α → α)
    (sun : Body α) (bodies : List (Body α)) (i : Nat) (b : Body α)
    (hb : bodies[i]? = some b) :
    ∃ b1, (computeForcesOut sqrt sun bodies)[i]? = some b1 ∧
      b1.Vx = (forceBody sqrt sun b).1.Vx ∧ b1.Vy = (forceBody sqrt sun b).1.Vy ∧
      b1.X = b.X + b1.Vx * TimeStep ∧ b1.Y = b.Y + b1.Vy * TimeStep := by
  refine ⟨tickBody sqrt sun b, ?_, rfl, rfl, rfl, rfl⟩
  rw [getElem?_computeForcesOut, hb]; rfl

/-- Witness of C2: the second of two test bodies over the rationals. -/
theorem computeForces_position_update_witness :
    [testBody (3 : ℚ) 4 1 0, testBody 1 0 0 1][1]? = some (testBody 1 0 0 1) ∧
    ∃ b1, (computeForcesOut qsqrt testSun [testBody (3 : ℚ) 4 1 0, testBody 1 0 0 1])[1]?
        = some b1 ∧
      b1.Vx = (forceBody qsqrt testSun (testBody (1 : ℚ) 0 0 1)).1.Vx ∧
      b1.Vy = (forceBody qsqrt testSun (testBody (1 : ℚ) 0 0 1)).1.Vy ∧
      b1.X = 1 + b1.Vx * TimeStep ∧ b1.Y = 0 + b1.Vy * TimeStep :=
  ⟨rfl, computeForces_position_update qsqrt testSun
    [testBody (3 : ℚ) 4 1 0, testBody 1 0 0 1] 1 (testBody 1 0 0 1) rfl⟩

/-- C3: a body of non-zero mass placed exactly at the Sun's position keeps its
velocity, moves to `(X + Vx*TimeStep, Y + Vy*TimeStep)`, and its iteration
evaluates exactly two divisions, both by the body's mass (none by `dist`), so no
divisor is zero; `computeForces` is a total function and signals no error. -/
theorem computeForces_zero_distance (sun : Body ℝ) (bodies : List (Body ℝ)) (i : Nat)
    (b : Body ℝ) (hb : bodies[i]? = some b) (hm : b.Mass ≠ 0)
    (hx : b.X = sun.X) (hy : b.Y = sun.Y) :
    (∃ b1, (computeForcesOut Real.sqrt sun bodies)[i]? = some b1 ∧
      b1.Vx = b.Vx ∧ b1.Vy = b.Vy ∧
      b1.X = b.X + b.Vx * TimeStep ∧ b1.Y = b.Y + b.Vy * TimeStep) ∧
    computeForcesDivisors Real.sqrt sun bodies =
      computeForcesDivisors Real.sqrt sun (bodies.take i) ++ [b.Mass, b.Mass] ++
        computeForcesDivisors Real.sqrt sun (bodies.drop (i + 1)) ∧
    (0 : ℝ) ∉ [b.Mass, b.Mass] := by
  have hd := dist_eq_zero sun b hx hy
  have hf : forceBody Real.sqrt sun b = (b, [b.Mass, b.Mass]) := by
    simp [forceBody, hd]
  refine ⟨⟨tickBody Real.sqrt sun b, ?_, ?_, ?_, ?_, ?_⟩, ?_, ?_⟩
  · rw [getElem?_computeForcesOut, hb]; rfl
  · simp [tickBody, moveBody, hf]
  · simp [tickBody, moveBody, hf]
  · simp [tickBody, moveBody, hf]
  · simp [tickBody, moveBody, hf]
  · simp only [computeForcesDivisors_eq]
    conv_lhs => rw [split_at bodies i b hb]
    simp only [List.flatMap_append, List.flatMap_cons, List.flatMap_nil, hf, List.append_nil]
  · simp [Ne.symm hm]

/-- Witness of C3: a body of mass 2 sitting on a Sun at the origin, after another body. -/
theorem computeForces_zero_distance_witness :
    [testBody (3 : ℝ) 4 1 0, testBody 0 0 6 7][1]? = some (testBody 0 0 6 7) ∧
    (testBody (0 : ℝ) 0 6 7).Mass ≠ 0 ∧
    (testBody (0 : ℝ) 0 6 7).X = (testSun : Body ℝ).X ∧
    (testBody (0 : ℝ) 0 6 7).Y = (testSun : Body ℝ).Y ∧
    ∃ b1, (computeForcesOut Real.sqrt testSun [testBody (3 : ℝ) 4 1 0, testBody 0 0 6 7])[1]?
        = some b1 ∧
      b1.Vx = 6 ∧ b1.Vy = 7 ∧ b1.X = 0 + 6 * TimeStep ∧ b1.Y = 0 + 7 * TimeStep :=
  have h2 : (testBody (0 : ℝ) 0 6 7).Mass ≠ 0 := by simp [testBody]
  ⟨rfl, h2, rfl, rfl,
    (computeForces_zero_distance testSun [testBody (3 : ℝ) 4 1 0, testBody 0 0 6 7] 1
      (testBody 0 0 6 7) rfl h2 rfl rfl).1⟩

/-- C5, as stated, fails: a planet placed at `(0, 1)` with zero velocity is at
distance 1 from the Sun, and after `initPlanets` its velocity is not perpendicular
to its radius vector (`X*Vx + Y*Vy ≠ 0`). -/
theorem initPlanets_not_tangential_off_axis :
    Real.sqrt ((testBody (0 : ℝ) 1 0 0).X ^ 2 + (testBody (0 : ℝ) 1 0 0).Y ^ 2) ≠ 0 ∧
    (testBody (0 : ℝ) 1 0 0).Vx = 0 ∧ (testBody (0 : ℝ) 1 0 0).Vy = 0 ∧
    ∃ p1, (initPlanetsOut Real.sqrt Sun [testBody (0 : ℝ) 1 0 0])[0]? = some p1 ∧
      p1.X * p1.Vx + p1.Y * p1.Vy ≠ 0 := by
  have h1 : Real.sqrt ((testBody (0 : ℝ) 1 0 0).X ^ 2 + (testBody (0 : ℝ) 1 0 0).Y ^ 2) = 1 := by
    simp [testBody]
  refine ⟨by rw [h1]; norm_num, rfl, rfl, (initBody Real.sqrt Sun (testBody 0 1 0 0)).1, ?_, ?_⟩
  · rw [getElem?_initPlanetsOut]; rfl
  · have h2 : Real.sqrt ((testBody (0 : ℝ) 1 0 0).X * (testBody (0 : ℝ) 1 0 0).X
        + (testBody (0 : ℝ) 1 0 0).Y * (testBody (0 : ℝ) 1 0 0).Y) = 1 := by
      simp [testBody]
    simp only [initBody, h2, div_one]
    have h3 : 0 < Real.sqrt (G * (Sun : Body ℝ).Mass) := Real.sqrt_pos.mpr G_mul_SunMass_pos
    simp only [testBody, mul_zero, zero_add, one_mul]
    exact h3.ne'

/-- C5, amended, in exact real arithmetic: after `initPlanets`, the velocity of a
planet at non-zero distance from the Sun is `(0, sqrt(G*M/d))`, so
`X*Vx + Y*Vy = Y*sqrt(G*M/d)`, and the velocity is perpendicular to the radius
vector exactly when the planet lies on the x axis (`Y = 0`).  Each of the four
configured planets has `Y = 0`, and after `initPlanets` on the initial state each
of them has `X*Vx + Y*Vy = 0`. -/
theorem initPlanets_tangential_iff (planets : List (Body ℝ)) (i : Nat) (p : Body ℝ)
    (hp : planets[i]? = some p) (hd : Real.sqrt (p.X ^ 2 + p.Y ^ 2) ≠ 0) :
    (∃ p1, (initPlanetsOut Real.sqrt Sun planets)[i]? = some p1 ∧
      p1.Vx = 0 ∧
      p1.Vy = Real.sqrt (G * (Sun : Body ℝ).Mass / Real.sqrt (p.X ^ 2 + p.Y ^ 2)) ∧
      p1.X * p1.Vx + p1.Y * p1.Vy =
        p.Y * Real.sqrt (G * (Sun : Body ℝ).Mass / Real.sqrt (p.X ^ 2 + p.Y ^ 2)) ∧
      (p1.X * p1.Vx + p1.Y * p1.Vy = 0 ↔ p.Y = 0)) ∧
    (Planets : List (Body ℝ)).length = 4 ∧
    (∀ q ∈ (Planets : List (Body ℝ)), q.Y = 0) ∧
    (initPlanets Real.sqrt (initialState : State ℝ)).heap.elems
        (initPlanets Real.sqrt (initialState : State ℝ)).Planets =
      (Planets : List (Body ℝ)).map (fun q => (initBody Real.sqrt Sun q).1) ∧
    ∀ q1 ∈ (initPlanets Real.sqrt (initialState : State ℝ)).heap.elems
        (initPlanets Real.sqrt (initialState : State ℝ)).Planets,
      q1.X * q1.Vx + q1.Y * q1.Vy = 0 := by
  have hd0 : 0 < Real.sqrt (p.X ^ 2 + p.Y ^ 2) :=
    lt_of_le_of_ne (Real.sqrt_nonneg _) (Ne.symm hd)
  have hv : 0 < Real.sqrt (G * (Sun : Body ℝ).Mass / Real.sqrt (p.X ^ 2 + p.Y ^ 2)) :=
    Real.sqrt_pos.mpr (div_pos G_mul_SunMass_pos hd0)
  have he : (initBody Real.sqrt Sun p).1.X * (initBody Real.sqrt Sun p).1.Vx
      + (initBody Real.sqrt Sun p).1.Y * (initBody Real.sqrt Sun p).1.Vy
      = p.Y * Real.sqrt (G * (Sun : Body ℝ).Mass / Real.sqrt (p.X ^ 2 + p.Y ^ 2)) := by
    simp only [initBody, sq, mul_zero, zero_add]
  have hY : ∀ q ∈ (Planets : List (Body ℝ)), q.Y = 0 := by
    intro q hq
    simp only [Planets, List.mem_cons, List.mem_singleton, List.not_mem_nil, or_false] at hq
    rcases hq with hq | hq | hq | hq <;> rw [hq]
  have hmap : (initPlanets Real.sqrt (initialState : State ℝ)).heap.elems
        (initPlanets Real.sqrt (initialState : State ℝ)).Planets =
      (Planets : List (Body ℝ)).map (fun q => (initBody Real.sqrt Sun q).1) :=
    initPlanetsOut_eq Real.sqrt Sun Planets
  refine ⟨⟨(initBody Real.sqrt Sun p).1, ?_, rfl, ?_, he, ?_⟩, rfl, hY, hmap, ?_⟩
  · rw [getElem?_initPlanetsOut, hp]; rfl
  · simp only [initBody, sq]
  · rw [he]
    constructor
    · intro h
      rcases mul_eq_zero.mp h with h0 | h0
      · exact h0
      · exact absurd h0 hv.ne'
    · intro h
      rw [h, zero_mul]
  · intro q1 hq1
    rw [hmap, List.mem_map] at hq1
    obtain ⟨q, hq, rfl⟩ := hq1
    have hq0 : (initBody Real.sqrt Sun q).1.Y = 0 := hY q hq
    have hvx : (initBody Real.sqrt Sun q).1.Vx = 0 := rfl
    rw [hq0, hvx, mul_zero, zero_mul, add_zero]

/-- Witness of amended C5: a planet on the x axis at `(2, 0)`. -/
theorem initPlanets_tangential_iff_witness :
    [testBody (2 : ℝ) 0 0 0][0]? = some (testBody 2 0 0 0) ∧
    Real.sqrt ((testBody (2 : ℝ) 0 0 0).X ^ 2 + (testBody (2 : ℝ) 0 0 0).Y ^ 2) ≠ 0 ∧
    ∃ p1, (initPlanetsOut Real.sqrt Sun [testBody (2 : ℝ) 0 0 0])[0]? = some p1 ∧
      p1.X * p1.Vx + p1.Y * p1.Vy = 0 :=
  have h2 : Real.sqrt ((testBody (2 : ℝ) 0 0 0).X ^ 2 + (testBody (2 : ℝ) 0 0 0).Y ^ 2) ≠ 0 := by
    have h : (0 : ℝ) < (testBody (2 : ℝ) 0 0 0).X ^ 2 + (testBody (2 : ℝ) 0 0 0).Y ^ 2 := by
      simp only [testBody]; norm_num
    exact (Real.sqrt_pos.mpr h).ne'
  ⟨rfl, h2, by
    obtain ⟨⟨p1, h1, _, _, _, hiff⟩, _⟩ :=
      initPlanets_tangential_iff [testBody (2 : ℝ) 0 0 0] 0 (testBody 2 0 0 0) rfl h2
    exact ⟨p1, h1, hiff.mpr rfl⟩⟩

/-- C6: `computeForces` returns a collection of the same length in which, at every
index, `Name`, `Mass`, `Radius` and `BodyColor` are those of the input body at that
index.  Holds for every scalar field and every square-root function. -/
theorem computeForces_frame {α : Type} [Field α] [DecidableEq α] (sqrt : α → α)
    (sun : Body α) (bodies : List (Body α)) :
    (computeForcesOut sqrt sun bodies).length = bodies.length ∧
    ∀ i : Nat,
      ((computeForcesOut sqrt sun bodies)[i]?).map
          (fun b => (b.Name, b.Mass, b.Radius, b.BodyColor)) =
        (bodies[i]?).map (fun b => (b.Name, b.Mass, b.Radius, b.BodyColor)) := by
  constructor
  · rw [computeForcesOut_eq, List.length_map]
  · intro i
    rw [getElem?_computeForcesOut]
    cases bodies[i]? with
    | none => rfl
    | some b => rfl

/-- C7: a call of `computeForces` leaves the caller's collection as it was: the
array of the input slice holds the same bodies after the call, every array
allocated before the call is unchanged, and the returned slice is a fresh array
(all writes went to the copy).  Holds for every state and every input slice. -/
theorem computeForces_input_unchanged {α : Type} [Field α] [DecidableEq α] (sqrt : α → α)
    (s : State α) (bodies : Nat) :
    (computeForces sqrt s bodies).1.heap.elems bodies = s.heap.elems bodies ∧
    (computeForces sqrt s bodies).1.heap.take s.heap.length = s.heap ∧
    (computeForces sqrt s bodies).2 = s.heap.length ∧
    (computeForces sqrt s bodies).1.heap.length = s.heap.length + 1 := by
  rw [computeForces_eq]
  refine ⟨?_, ?_, rfl, ?_⟩
  · exact elems_append_same _ _ _ (List.length_map _ _)
  · simp
  · simp

/-- C8: `computeForces` commutes with every permutation of the input collection:
for an index list `p` that is a permutation of the indices of `bodies`, the
output for the rearranged input is the same rearrangement of the output for
`bodies`, and so holds the same bodies as that output. -/
theorem computeForces_permutation {α : Type} [Field α] [DecidableEq α] (sqrt : α → α)
    (sun : Body α) (bodies : List (Body α)) (p : List Nat)
    (hp : p.Perm (List.range bodies.length)) :
    computeForcesOut sqrt sun (permuted p bodies) =
      permuted p (computeForcesOut sqrt sun bodies) ∧
    (computeForcesOut sqrt sun (permuted p bodies)).Perm (computeForcesOut sqrt sun bodies) := by
  have h1 : computeForcesOut sqrt sun (permuted p bodies) =
      permuted p (computeForcesOut sqrt sun bodies) := by
    rw [computeForcesOut_eq, computeForcesOut_eq, permuted_map]
  refine ⟨h1, ?_⟩
  rw [computeForcesOut_eq, computeForcesOut_eq]
  exact (permuted_perm p bodies hp).map _

/-- Witness of C8: three bodies rearranged by the index list `[2, 0, 1]`. -/
theorem computeForces_permutation_witness :
    [2, 0, 1].Perm (List.range [testBody (3 : ℚ) 4 1 0, testBody 1 0 0 1, testBody 0 0 6 7].length) ∧
    permuted [2, 0, 1] [testBody (3 : ℚ) 4 1 0, testBody 1 0 0 1, testBody 0 0 6 7] =
      [testBody 0 0 6 7, testBody 3 4 1 0, testBody 1 0 0 1] ∧
    computeForcesOut qsqrt testSun [testBody (0 : ℚ) 0 6 7, testBody 3 4 1 0, testBody 1 0 0 1] =
      permuted [2, 0, 1]
        (computeForcesOut qsqrt testSun
          [testBody (3 : ℚ) 4 1 0, testBody 1 0 0 1, testBody 0 0 6 7]) :=
  have hp : [2, 0, 1].Perm
      (List.range [testBody (3 : ℚ) 4 1 0, testBody 1 0 0 1, testBody 0 0 6 7].length) := by
    decide
  ⟨hp, rfl,
    (computeForces_permutation qsqrt testSun
      [testBody (3 : ℚ) 4 1 0, testBody 1 0 0 1, testBody 0 0 6 7] [2, 0, 1] hp).1⟩

/-- C9: a body of non-zero mass at `(d, 0)`, `d > 0`, with velocity `(0, v)`, and the
Sun of mass `M` at the origin: one call of `computeForces` yields
`Vx1 = -G*M*TimeStep/d^2`, `Vy1 = v`, `X1 = d - G*M*TimeStep^2/d^2`, `Y1 = v*TimeStep`. -/
theorem computeForces_x_axis_tick (sun b : Body ℝ) (bodies : List (Body ℝ)) (i : Nat)
    (d v M : ℝ) (hb : bodies[i]? = some b)
    (hsx : sun.X = 0) (hsy : sun.Y = 0) (hsm : sun.Mass = M) (hm : b.Mass ≠ 0)
    (hX : b.X = d) (hY : b.Y = 0) (hd : 0 < d) (hVx : b.Vx = 0) (hVy : b.Vy = v) :
    ∃ b1, (computeForcesOut Real.sqrt sun bodies)[i]? = some b1 ∧
      b1.Vx = -G * M * TimeStep / d ^ 2 ∧ b1.Vy = v ∧
      b1.X = d - G * M * TimeStep ^ 2 / d ^ 2 ∧ b1.Y = v * TimeStep := by
  have hdist : Real.sqrt ((sun.X - b.X) * (sun.X - b.X) + (sun.Y - b.Y) * (sun.Y - b.Y)) = d := by
    rw [hsx, hsy, hX, hY]
    have : (0 - d) * (0 - d) + (0 - 0) * (0 - 0) = d ^ 2 := by ring
    rw [this, Real.sqrt_sq (le_of_lt hd)]
  have hd0 : d ≠ 0 := hd.ne'
  have hvx : (forceBody Real.sqrt sun b).1.Vx = -G * M * TimeStep / d ^ 2 := by
    simp only [forceBody, hdist, hd0, ne_eq, not_false_eq_true, if_true]
    rw [hsx, hsm, hX, hVx]
    field_simp
    ring
  have hvy : (forceBody Real.sqrt sun b).1.Vy = v := by
    simp only [forceBody, hdist, hd0, ne_eq, not_false_eq_true, if_true]
    rw [hsy, hY, hVy]
    simp
  refine ⟨tickBody Real.sqrt sun b, ?_, hvx, hvy, ?_, ?_⟩
  · rw [getElem?_computeForcesOut, hb]; rfl
  · have hx1 : (tickBody Real.sqrt sun b).X = b.X + (forceBody Real.sqrt sun b).1.Vx * TimeStep :=
      rfl
    rw [hx1, hvx, hX]
    field_simp
    ring
  · have hy1 : (tickBody Real.sqrt sun b).Y = b.Y + (forceBody Real.sqrt sun b).1.Vy * TimeStep :=
      rfl
    rw [hy1, hvy, hY, zero_add]

/-- Witness of C9, the instance of the specification: the Sun of mass `1.989e30` at
the origin and the Earth at `(1.496e11, 0)` with its initialised orbital speed. -/
theorem computeForces_x_axis_tick_witness :
    (Sun : Body ℝ).X = 0 ∧ (Sun : Body ℝ).Y = 0 ∧ (Sun : Body ℝ).Mass = 1.989e30 ∧
    (earthInOrbit Real.sqrt).Mass ≠ 0 ∧ (earthInOrbit Real.sqrt).X = 1.496e11 ∧
    (earthInOrbit Real.sqrt).Y = 0 ∧ (0 : ℝ) < 1.496e11 ∧
    ∃ b1, (computeForcesOut Real.sqrt Sun [earthInOrbit Real.sqrt])[0]? = some b1 ∧
      b1.Vx = -(G : ℝ) * 1.989e30 * TimeStep / 1.496e11 ^ 2 ∧
      b1.Vy = Real.sqrt (G * 1.989e30 / 1.496e11) ∧
      b1.X = (1.496e11 : ℝ) - G * 1.989e30 * TimeStep ^ 2 / 1.496e11 ^ 2 ∧
      b1.Y = Real.sqrt (G * 1.989e30 / 1.496e11) * TimeStep :=
  have hm : (earthInOrbit Real.sqrt).Mass ≠ 0 := by
    simp only [earthInOrbit, earth]; norm_num
  have hd : (0 : ℝ) < 1.496e11 := by norm_num
  ⟨rfl, rfl, rfl, hm, rfl, rfl, hd,
    computeForces_x_axis_tick Sun (earthInOrbit Real.sqrt) [earthInOrbit Real.sqrt] 0
      1.496e11 (Real.sqrt (G * 1.989e30 / 1.496e11)) 1.989e30 rfl rfl rfl rfl hm rfl rfl hd rfl rfl⟩

/-- C10, as stated, fails: after `initPlanets` on the initial state the Earth has
`Vx = 0` and `Vy = sqrt(G*Sun.Mass/1.496e11)`, but this `Vy` exceeds `29788`, so it
is not within `0.5` of `29785`. -/
theorem initPlanets_earth_speed_not_29785 :
    ∃ e, (initPlanets Real.sqrt (initialState : State ℝ)).heap.get
        (initPlanets Real.sqrt (initialState : State ℝ)).Planets 0 = some e ∧
      e.Name = "Earth" ∧ e.X = 1.496e11 ∧ e.Y = 0 ∧
      ¬ (|e.Vy - 29785| ≤ 0.5) := by
  refine ⟨(initBody Real.sqrt Sun (earth : Body ℝ)).1, ?_, rfl, rfl, rfl, ?_⟩
  · rw [initPlanets_eq]; rfl
  · have h := earth_speed_bounds.1
    intro hcon
    have := (abs_le.mp hcon).2
    rw [earth_speed_eq] at this
    linarith

/-- C10, amended: after `initPlanets` on the initial state the Earth has `Vx = 0`
and `Vy = sqrt(G*Sun.Mass/1.496e11)`, and this `Vy` lies strictly between
`29788.89` and `29788.90`; it agrees with the specification's `29785 m/s` to
within `4 m/s` (`|Vy - 29785| ≤ 4`). -/
theorem initPlanets_earth_speed :
    ∃ e, (initPlanets Real.sqrt (initialState : State ℝ)).heap.get
        (initPlanets Real.sqrt (initialState : State ℝ)).Planets 0 = some e ∧
      e.Name = "Earth" ∧ e.X = 1.496e11 ∧ e.Y = 0 ∧
      e.Vx = 0 ∧ e.Vy = Real.sqrt (G * (Sun : Body ℝ).Mass / 1.496e11) ∧
      29788.89 < e.Vy ∧ e.Vy < 29788.90 ∧ |e.Vy - 29785| ≤ 4 := by
  refine ⟨(initBody Real.sqrt Sun (earth : Body ℝ)).1, ?_, rfl, rfl, rfl, rfl, earth_speed_eq, ?_, ?_,
    ?_⟩
  · rw [initPlanets_eq]; rfl
  · rw [earth_speed_eq]; exact earth_speed_bounds.1
  · rw [earth_speed_eq]; exact earth_speed_bounds.2
  · rw [earth_speed_eq, abs_le]
    constructor
    · linarith [earth_speed_bounds.1]
    · linarith [earth_speed_bounds.2]

/-- C11: the collection returned by `computeForces` is a function of the input
collection and of `Sun.X`, `Sun.Y`, `Sun.Mass` only (with the constants `G` and
`TimeStep`): two calls in any two states that agree on these return equal
collections, whatever else the states hold; and a second call on the same slice,
made after the first, returns the same collection as the first. -/
theorem computeForces_deterministic {α : Type} [Field α] [DecidableEq α] (sqrt : α → α)
    (s1 s2 : State α) (a1 a2 : Nat) (hin : s1.heap.elems a1 = s2.heap.elems a2)
    (hx : s1.Sun.X = s2.Sun.X) (hy : s1.Sun.Y = s2.Sun.Y) (hm : s1.Sun.Mass = s2.Sun.Mass) :
    (computeForces sqrt s1 a1).1.heap.elems (computeForces sqrt s1 a1).2 =
      (computeForces sqrt s2 a2).1.heap.elems (computeForces sqrt s2 a2).2 ∧
    (computeForces sqrt (computeForces sqrt s1 a1).1 a1).1.heap.elems
        (computeForces sqrt (computeForces sqrt s1 a1).1 a1).2 =
      (computeForces sqrt s1 a1).1.heap.elems (computeForces sqrt s1 a1).2 := by
  constructor
  · rw [elems_computeForces, elems_computeForces, hin]
    apply List.map_congr_left
    intro b _
    exact tickBody_congr sqrt _ _ b hx hy hm
  · rw [elems_computeForces, elems_computeForces]
    have h1 : (computeForces sqrt s1 a1).1.heap.elems a1 = s1.heap.elems a1 := by
      rw [computeForces_eq]
      exact elems_append_same _ _ _ (List.length_map _ _)
    have h2 : (computeForces sqrt s1 a1).1.Sun = s1.Sun := by
      rw [computeForces_eq]
    rw [h1, h2]

/-- Witness of C11: the same two bodies in two states that differ in the rest of
the memory, in the `Planets` variable, in the log and in the Sun's name. -/
theorem computeForces_deterministic_witness :
    (stateOf testSun [testBody (3 : ℚ) 4 1 0, testBody 1 0 0 1]).heap.elems 0 =
      (otherState : State ℚ).heap.elems 1 ∧
    (stateOf testSun [testBody (3 : ℚ) 4 1 0, testBody 1 0 0 1]).Sun.X =
      (otherState : State ℚ).Sun.X ∧
    (stateOf testSun [testBody (3 : ℚ) 4 1 0, testBody 1 0 0 1]).Sun.Y =
      (otherState : State ℚ).Sun.Y ∧
    (stateOf testSun [testBody (3 : ℚ) 4 1 0, testBody 1 0 0 1]).Sun.Mass =
      (otherState : State ℚ).Sun.Mass ∧
    (computeForces qsqrt (stateOf testSun [testBody (3 : ℚ) 4 1 0, testBody 1 0 0 1]) 0).1.heap.elems
        (computeForces qsqrt (stateOf testSun [testBody (3 : ℚ) 4 1 0, testBody 1 0 0 1]) 0).2 =
      (computeForces qsqrt otherState 1).1.heap.elems (computeForces qsqrt otherState 1).2 :=
  ⟨rfl, rfl, rfl, rfl,
    (computeForces_deterministic qsqrt
      (stateOf testSun [testBody (3 : ℚ) 4 1 0, testBody 1 0 0 1]) otherState 0 1
      rfl rfl rfl rfl).1⟩

/-- C13: for a body of non-zero mass at non-zero distance from the Sun, the
velocity change applied by `computeForces` is the direct form
`TimeStep * G*Sun.Mass/dist^3 * (dx, dy)`, in which the body's mass does not occur;
the factor is positive when the Sun's mass is, so the change points toward the Sun;
and a body with the same position and velocity but another non-zero mass gets the
same output position and velocity. -/
theorem computeForces_mass_cancels (sun : Body ℝ) (bodies : List (Body ℝ)) (i : Nat)
    (b : Body ℝ) (hb : bodies[i]? = some b) (hm : b.Mass ≠ 0)
    (hd : Real.sqrt ((sun.X - b.X) ^ 2 + (sun.Y - b.Y) ^ 2) ≠ 0) :
    let dx := sun.X - b.X
    let dy := sun.Y - b.Y
    let dist := Real.sqrt (dx ^ 2 + dy ^ 2)
    ∃ b1, (computeForcesOut Real.sqrt sun bodies)[i]? = some b1 ∧
      b1.Vx - b.Vx = TimeStep * (G * sun.Mass / dist ^ 3) * dx ∧
      b1.Vy - b.Vy = TimeStep * (G * sun.Mass / dist ^ 3) * dy ∧
      b1.Vx = b.Vx + (directAccel Real.sqrt sun b).1 * TimeStep ∧
      b1.Vy = b.Vy + (directAccel Real.sqrt sun b).2 * TimeStep ∧
      (0 < sun.Mass → 0 < TimeStep * (G * sun.Mass / dist ^ 3)) ∧
      ∀ (bodies2 : List (Body ℝ)) (j : Nat) (b2 : Body ℝ), bodies2[j]? = some b2 →
        b2.Mass ≠ 0 → b2.X = b.X → b2.Y = b.Y → b2.Vx = b.Vx → b2.Vy = b.Vy →
        ∃ b3, (computeForcesOut Real.sqrt sun bodies2)[j]? = some b3 ∧
          b3.X = b1.X ∧ b3.Y = b1.Y ∧ b3.Vx = b1.Vx ∧ b3.Vy = b1.Vy := by
  intro dx dy dist
  have hdir := forceBody_direct sun b hm hd
  have hvx : (tickBody Real.sqrt sun b).Vx = (forceBody Real.sqrt sun b).1.Vx := rfl
  have hvy : (tickBody Real.sqrt sun b).Vy = (forceBody Real.sqrt sun b).1.Vy := rfl
  have hdp : 0 < dist := lt_of_le_of_ne (Real.sqrt_nonneg _) (Ne.symm hd)
  refine ⟨tickBody Real.sqrt sun b, ?_, ?_, ?_, ?_, ?_, ?_, ?_⟩
  · rw [getElem?_computeForcesOut, hb]; rfl
  · rw [hvx, hdir.1]
    simp only [directAccel, dx, dist]
    ring
  · rw [hvy, hdir.2]
    simp only [directAccel, dy, dist]
    ring
  · rw [hvx, hdir.1]
  · rw [hvy, hdir.2]
  · intro hM
    have hG : (0 : ℝ) < G := by simp only [G]; norm_num
    have hT : (0 : ℝ) < TimeStep := by simp only [TimeStep]; norm_num
    exact mul_pos hT (div_pos (mul_pos hG hM) (pow_pos hdp 3))
  · intro bodies2 j b2 hb2 hm2 hX hY hVx hVy
    have hd2 : Real.sqrt ((sun.X - b2.X) ^ 2 + (sun.Y - b2.Y) ^ 2) ≠ 0 := by
      rw [hX, hY]; exact hd
    have hdir2 := forceBody_direct sun b2 hm2 hd2
    have hacc : directAccel Real.sqrt sun b2 = directAccel Real.sqrt sun b := by
      simp only [directAccel, hX, hY]
    have hx1 : ∀ c : Body ℝ, (tickBody Real.sqrt sun c).X
        = c.X + (forceBody Real.sqrt sun c).1.Vx * TimeStep := fun _ => rfl
    have hy1 : ∀ c : Body ℝ, (tickBody Real.sqrt sun c).Y
        = c.Y + (forceBody Real.sqrt sun c).1.Vy * TimeStep := fun _ => rfl
    have hvx1 : ∀ c : Body ℝ, (tickBody Real.sqrt sun c).Vx
        = (forceBody Real.sqrt sun c).1.Vx := fun _ => rfl
    have hvy1 : ∀ c : Body ℝ, (tickBody Real.sqrt sun c).Vy
        = (forceBody Real.sqrt sun c).1.Vy := fun _ => rfl
    refine ⟨tickBody Real.sqrt sun b2, ?_, ?_, ?_, ?_, ?_⟩
    · rw [getElem?_computeForcesOut, hb2]; rfl
    · rw [hx1, hx1, hdir2.1, hdir.1, hacc, hX, hVx]
    · rw [hy1, hy1, hdir2.2, hdir.2, hacc, hY, hVy]
    · rw [hvx1, hvx1, hdir2.1, hdir.1, hacc, hVx]
    · rw [hvy1, hvy1, hdir2.2, hdir.2, hacc, hVy]

/-- Witness of C13: a body of mass 2 at `(3, 4)`, at distance 5 from a Sun of mass 5. -/
theorem computeForces_mass_cancels_witness :
    [testBody (3 : ℝ) 4 1 0][0]? = some (testBody 3 4 1 0) ∧
    (testBody (3 : ℝ) 4 1 0).Mass ≠ 0 ∧
    Real.sqrt (((testSun : Body ℝ).X - (testBody (3 : ℝ) 4 1 0).X) ^ 2
      + ((testSun : Body ℝ).Y - (testBody (3 : ℝ) 4 1 0).Y) ^ 2) ≠ 0 ∧
    ∃ b1, (computeForcesOut Real.sqrt testSun [testBody (3 : ℝ) 4 1 0])[0]? = some b1 ∧
      b1.Vx = 1 + (directAccel Real.sqrt testSun (testBody (3 : ℝ) 4 1 0)).1 * TimeStep :=
  have h2 : (testBody (3 : ℝ) 4 1 0).Mass ≠ 0 := by simp [testBody]
  have h3 : Real.sqrt (((testSun : Body ℝ).X - (testBody (3 : ℝ) 4 1 0).X) ^ 2
      + ((testSun : Body ℝ).Y - (testBody (3 : ℝ) 4 1 0).Y) ^ 2) ≠ 0 := by
    have h : (0 : ℝ) < ((testSun : Body ℝ).X - (testBody (3 : ℝ) 4 1 0).X) ^ 2
        + ((testSun : Body ℝ).Y - (testBody (3 : ℝ) 4 1 0).Y) ^ 2 := by
      simp only [testBody, testSun]; norm_num
    exact (Real.sqrt_pos.mpr h).ne'
  ⟨rfl, h2, h3, by
    obtain ⟨b1, h1, _, _, hvx, _⟩ :=
      computeForces_mass_cancels testSun [testBody (3 : ℝ) 4 1 0] 0 _ rfl h2 h3
    exact ⟨b1, h1, hvx⟩⟩

/-- C14, as stated for any mass, fails for a body of mass zero: its iteration of
the first loop divides by the mass, so `computeForces` evaluates a division by
zero (`0/0`, which is NaN in `float64`), and the output velocity, hence
`X*Vy - Y*Vx` after the tick, is not a real number. -/
theorem computeForces_massless_zero_divisor :
    (masslessBody : Body ℝ).Mass = 0 ∧ (Sun : Body ℝ).X = 0 ∧ (Sun : Body ℝ).Y = 0 ∧
    (0 : ℝ) ∈ computeForcesDivisors Real.sqrt Sun [masslessBody] := by
  refine ⟨rfl, rfl, rfl, ?_⟩
  rw [computeForcesDivisors_eq]
  simp [forceBody, masslessBody]

/-- C14, amended to bodies of non-zero mass: with the Sun at the origin, for every
body of non-zero mass (any position and velocity, the zero-distance case
included) every division of its iteration has a non-zero divisor and
`X*Vy - Y*Vx` is the same before and after `computeForces`; the same holds after
any number `n` of ticks. -/
theorem computeForces_angular_momentum (sun : Body ℝ) (bodies : List (Body ℝ)) (i : Nat)
    (b : Body ℝ) (hb : bodies[i]? = some b) (hm : b.Mass ≠ 0)
    (hsx : sun.X = 0) (hsy : sun.Y = 0) :
    (∀ d ∈ (forceBody Real.sqrt sun b).2, d ≠ 0) ∧
    (∃ b1, (computeForcesOut Real.sqrt sun bodies)[i]? = some b1 ∧
      b1.X * b1.Vy - b1.Y * b1.Vx = b.X * b.Vy - b.Y * b.Vx) ∧
    ∀ n : Nat, ∃ bn, ((computeForcesOut Real.sqrt sun)^[n] bodies)[i]? = some bn ∧
      (∀ d ∈ (forceBody Real.sqrt sun bn).2, d ≠ 0) ∧
      bn.X * bn.Vy - bn.Y * bn.Vx = b.X * b.Vy - b.Y * b.Vx := by
  refine ⟨forceBody_divisors_ne_zero sun b hm, ⟨tickBody Real.sqrt sun b, ?_, ?_⟩, ?_⟩
  · rw [getElem?_computeForcesOut, hb]; rfl
  · exact tickBody_angularMomentum sun b hsx hsy
  · intro n
    refine ⟨(tickBody Real.sqrt sun)^[n] b, ?_, ?_, ?_⟩
    · rw [iterate_computeForcesOut, List.getElem?_map, hb]; rfl
    · apply forceBody_divisors_ne_zero
      rw [iterate_tickBody_Mass]
      exact hm
    · induction n with
      | zero => rfl
      | succ n ih =>
        rw [Function.iterate_succ_apply']
        exact (tickBody_angularMomentum sun _ hsx hsy).trans ih

/-- Witness of amended C14: a body of mass 2 at `(3, 4)` with velocity `(1, 0)`. -/
theorem computeForces_angular_momentum_witness :
    [testBody (3 : ℝ) 4 1 0][0]? = some (testBody 3 4 1 0) ∧
    (testBody (3 : ℝ) 4 1 0).Mass ≠ 0 ∧
    (testSun : Body ℝ).X = 0 ∧ (testSun : Body ℝ).Y = 0 ∧
    ∃ b1, (computeForcesOut Real.sqrt testSun [testBody (3 : ℝ) 4 1 0])[0]? = some b1 ∧
      b1.X * b1.Vy - b1.Y * b1.Vx = 3 * 0 - 4 * 1 :=
  have h2 : (testBody (3 : ℝ) 4 1 0).Mass ≠ 0 := by simp [testBody]
  ⟨rfl, h2, rfl, rfl,
    (computeForces_angular_momentum testSun [testBody (3 : ℝ) 4 1 0] 0 _ rfl h2 rfl rfl).2.1⟩

/-- C15: the output of `computeForces` at index `i` is the fused single-body step
of the specification applied to the input body at index `i` alone; the two passes
equal one map of that step over the collection, and the output at `i` is the same
for every other collection that has the same body at index `i`.  Holds for every
scalar field and every square-root function. -/
theorem computeForces_fused_step {α : Type} [Field α] [DecidableEq α] (sqrt : α → α)
    (sun : Body α) (bodies : List (Body α)) :
    computeForcesOut sqrt sun bodies = bodies.map (fusedStep sqrt sun) ∧
    (∀ i : Nat, (computeForcesOut sqrt sun bodies)[i]? =
      (bodies[i]?).map (fusedStep sqrt sun)) ∧
    (∀ (i : Nat) (bodies2 : List (Body α)), bodies2[i]? = bodies[i]? →
      (computeForcesOut sqrt sun bodies2)[i]? = (computeForcesOut sqrt sun bodies)[i]?) := by
  have hf : tickBody sqrt sun = fusedStep sqrt sun := funext (tickBody_eq_fusedStep sqrt sun)
  refine ⟨?_, ?_, ?_⟩
  · rw [computeForcesOut_eq, hf]
  · intro i
    rw [getElem?_computeForcesOut, hf]
  · intro i bodies2 h
    rw [getElem?_computeForcesOut, getElem?_computeForcesOut, h]

/-- C16: when every body of the input has strictly positive mass, every division
evaluated by `computeForces` (by `dist*dist` and twice by `dist` when `dist ≠ 0`,
and twice by the body's `Mass`) has a non-zero divisor. -/
theorem computeForces_no_zero_divisor (sun : Body ℝ) (bodies : List (Body ℝ))
    (hpos : ∀ b ∈ bodies, 0 < b.Mass) :
    computeForcesDivisors Real.sqrt sun bodies =
      bodies.flatMap (fun b =>
        (if Real.sqrt ((sun.X - b.X) * (sun.X - b.X) + (sun.Y - b.Y) * (sun.Y - b.Y)) ≠ 0 then
          [Real.sqrt ((sun.X - b.X) * (sun.X - b.X) + (sun.Y - b.Y) * (sun.Y - b.Y)) *
             Real.sqrt ((sun.X - b.X) * (sun.X - b.X) + (sun.Y - b.Y) * (sun.Y - b.Y)),
           Real.sqrt ((sun.X - b.X) * (sun.X - b.X) + (sun.Y - b.Y) * (sun.Y - b.Y)),
           Real.sqrt ((sun.X - b.X) * (sun.X - b.X) + (sun.Y - b.Y) * (sun.Y - b.Y))]
         else []) ++ [b.Mass, b.Mass]) ∧
    ∀ d ∈ computeForcesDivisors Real.sqrt sun bodies, d ≠ 0 := by
  constructor
  · rw [computeForcesDivisors_eq]
    apply List.flatMap_congr
    intro b _
    simp only [forceBody]
    split <;> rfl
  · intro d hd
    rw [computeForcesDivisors_eq, List.mem_flatMap] at hd
    obtain ⟨b, hb, hdb⟩ := hd
    exact forceBody_divisors_ne_zero sun b (hpos b hb).ne' d hdb

/-- Witness of C16: two bodies of mass 2, one away from the Sun and one on it. -/
theorem computeForces_no_zero_divisor_witness :
    (∀ b ∈ [testBody (3 : ℝ) 4 1 0, testBody 0 0 6 7], 0 < b.Mass) ∧
    ∀ d ∈ computeForcesDivisors Real.sqrt testSun [testBody (3 : ℝ) 4 1 0, testBody 0 0 6 7],
      d ≠ 0 :=
  have h : ∀ b ∈ [testBody (3 : ℝ) 4 1 0, testBody 0 0 6 7], 0 < b.Mass := by
    intro b hb
    simp only [List.mem_cons, List.mem_singleton, List.not_mem_nil, or_false] at hb
    rcases hb with hb | hb <;> rw [hb] <;> simp [testBody]
  ⟨h, (computeForces_no_zero_divisor testSun _ h).2⟩

/-- C17: each of the four configured planets has strictly positive mass and
radius and a strictly positive distance `sqrt(X*X + Y*Y)` from the Sun (which is
at the origin), so the quotient `G*Sun.Mass/distance` is positive; the divisors
of the divisions evaluated by `initPlanets` on the initial state are exactly these
four distances, all strictly positive. -/
theorem initPlanets_divisors_positive :
    (Planets : List (Body ℝ)).map (fun p => p.Name) = ["Earth", "Mars", "Venus", "Mercury"] ∧
    (Sun : Body ℝ).X = 0 ∧ (Sun : Body ℝ).Y = 0 ∧
    (∀ p ∈ (Planets : List (Body ℝ)),
      0 < p.Mass ∧ 0 < p.Radius ∧ 0 < Real.sqrt (p.X * p.X + p.Y * p.Y) ∧
      0 < G * (Sun : Body ℝ).Mass / Real.sqrt (p.X * p.X + p.Y * p.Y)) ∧
    (initPlanets Real.sqrt (initialState : State ℝ)).divisors =
      (Planets : List (Body ℝ)).map (fun p => Real.sqrt (p.X * p.X + p.Y * p.Y)) ∧
    ∀ d ∈ (initPlanets Real.sqrt (initialState : State ℝ)).divisors, 0 < d := by
  have hAU : (0 : ℝ) < AU := by simp only [AU]; norm_num
  have hall : ∀ p ∈ (Planets : List (Body ℝ)),
      0 < p.Mass ∧ 0 < p.Radius ∧ 0 < Real.sqrt (p.X * p.X + p.Y * p.Y) := by
    intro p hp
    simp only [Planets, List.mem_cons, List.mem_singleton, List.not_mem_nil, or_false] at hp
    rcases hp with hp | hp | hp | hp <;> rw [hp] <;>
      refine ⟨by norm_num, by norm_num, Real.sqrt_pos.mpr ?_⟩ <;> simp only [] <;> nlinarith
  have hdiv : (initPlanets Real.sqrt (initialState : State ℝ)).divisors =
      (Planets : List (Body ℝ)).map (fun p => Real.sqrt (p.X * p.X + p.Y * p.Y)) := by
    rw [initPlanets_eq]
    rfl
  refine ⟨rfl, rfl, rfl, ?_, hdiv, ?_⟩
  · intro p hp
    obtain ⟨h1, h2, h3⟩ := hall p hp
    exact ⟨h1, h2, h3, div_pos G_mul_SunMass_pos h3⟩
  · intro d hd
    rw [hdiv, List.mem_map] at hd
    obtain ⟨p, hp, rfl⟩ := hd
    exact (hall p hp).2.2

/-- C18: neither `initPlanets` nor `Game.Update` changes the package variable
`Sun`; after `initPlanets` and any number `n` of ticks from the initial state, `Sun`
is still the configured Sun, at `(0, 0)` with mass `1.989e30`, and the `Planets`
slice still has its initial length 4.  Holds for every scalar field. -/
theorem Sun_unchanged {α : Type} [Field α] [DecidableEq α] (sqrt : α → α) :
    (∀ s : State α, (initPlanets sqrt s).Sun = s.Sun) ∧
    (∀ s : State α, (Update sqrt s).Sun = s.Sun) ∧
    (Planets : List (Body α)).length = 4 ∧
    ∀ n : Nat,
      ((Update sqrt)^[n] (initPlanets sqrt initialState)).Sun = Sun ∧
      ((Update sqrt)^[n] (initPlanets sqrt initialState)).Sun.X = 0 ∧
      ((Update sqrt)^[n] (initPlanets sqrt initialState)).Sun.Y = 0 ∧
      ((Update sqrt)^[n] (initPlanets sqrt initialState)).Sun.Mass = 1.989e30 ∧
      ((Update sqrt)^[n] (initPlanets sqrt initialState)).heap.len
        ((Update sqrt)^[n] (initPlanets sqrt initialState)).Planets = 4 := by
  have hi : ∀ s : State α, (initPlanets sqrt s).Sun = s.Sun := by
    intro s; rw [initPlanets_eq]
  refine ⟨hi, ?_, rfl, ?_⟩
  · intro s; rw [Update_eq]
  · intro n
    obtain ⟨h1, h2⟩ := iterate_Update_Sun_len sqrt (initPlanets sqrt initialState) n
    have hs : ((Update sqrt)^[n] (initPlanets sqrt initialState)).Sun = (Sun : Body α) := by
      rw [h1, hi]; rfl
    refine ⟨hs, ?_, ?_, ?_, ?_⟩
    · rw [hs]; rfl
    · rw [hs]; rfl
    · rw [hs]; rfl
    · rw [h2, initPlanets_len]; rfl

end Claims

end Orbit
